import Mathlib

/-!
Verification development for the recording-type classifier and the two small
runtime modules of the repository (recording_utils.py, runtime_hook_sounddevice.py,
pye3d_plugin.py), as a shallow embedding in Lean 4.

Filesystem probes of a candidate path and the observable contents of a
candidate recording directory are modelled as explicit state records; Python
exceptions become an explicit error type threaded through with Except.
-/

deriving instance DecidableEq for Except

/-- Observable state of the candidate path after Path(rec_dir).resolve():
whether the resolved path exists, whether it is a directory, whether it is a
regular file, its pathlib suffix (extension including the leading dot, empty
when none), and its string form (used in error messages). -/
structure PathState where
  path_exists : Bool
  is_dir : Bool
  is_file : Bool
  suffix : String
  display : String
deriving DecidableEq, Repr

/-- Outcome of reading the device-style JSON info file of a directory:
the read succeeds, the file is absent (a FileNotFoundError condition), or the
read fails in some other way (malformed content, permission error), carrying
a description of that fault. -/
inductive JsonReadOutcome where
  | ok : JsonReadOutcome
  | fileNotFound : JsonReadOutcome
  | fault : String → JsonReadOutcome
deriving DecidableEq, Repr

/-- Observable contents of a candidate recording directory, as far as the
classifier probes them: whether the NewStyle structured info marker file is
present, the outcome of reading the device-style JSON info file, and the
legacy CSV info file as an association list of key-value pairs (none when the
CSV file is absent). -/
structure RecDirContents where
  info_file_present : Bool
  info_json : JsonReadOutcome
  info_csv : Option (List (String × String))
deriving DecidableEq, Repr

/-- Structured failure value of the classifier: reason and recovery strings,
as in the InvalidRecordingException class. -/
structure InvalidRecordingException where
  reason : String
  recovery : String
deriving DecidableEq, Repr

/-- Exceptions that may escape the classification routines: the structured
InvalidRecordingException, an uncaught fault propagated from a file read
(permission error, malformed content), or an AssertionError. -/
inductive PyExc where
  | invalidRecording : InvalidRecordingException → PyExc
  | uncaughtFault : String → PyExc
  | assertionError : PyExc
deriving DecidableEq, Repr

/-- Closed enumeration of the four recording formats. -/
inductive RecordingType where
  | MOBILE : RecordingType
  | INVISIBLE : RecordingType
  | OLD_STYLE : RecordingType
  | NEW_STYLE : RecordingType
deriving DecidableEq, Repr

/-- Python membership test value in RecordingType: true for every member of
the enumeration (every value of the closed inductive type). -/
def RecordingType.mem : RecordingType → Bool
  | RecordingType.MOBILE => true
  | RecordingType.INVISIBLE => true
  | RecordingType.OLD_STYLE => true
  | RecordingType.NEW_STYLE => true

namespace RecordingInfoFile

/-- Modelled from the spec: RecordingInfoFile.does_recording_contain_info_file
(declared in pupil_recording.info.recording_info, not part of the excerpt)
reports whether a structured, format-versioned recording-info marker file is
present directly in the directory. -/
def does_recording_contain_info_file (d : RecDirContents) : Bool :=
  d.info_file_present

end RecordingInfoFile

namespace recording_info_utils

/-- Modelled from the spec: recording_info_utils.read_info_json_file (declared
in pupil_recording.info, not part of the excerpt) reads the device-style JSON
info file of the directory; absence raises a FileNotFoundError condition and
any other failure raises some other fault. The JsonReadOutcome field records
which of the three happens. -/
def read_info_json_file (d : RecDirContents) : JsonReadOutcome :=
  d.info_json

/-- Modelled from the spec: recording_info_utils.read_info_csv_file (declared
in pupil_recording.info, not part of the excerpt) reads the legacy CSV info
file as a key-value mapping. Per the spec the OldStyle and Mobile rules treat
an absent CSV file as not matching (only the Invisible check deals with a
not-found condition), so an absent file reads as the empty mapping. -/
def read_info_csv_file (d : RecDirContents) : List (String × String) :=
  d.info_csv.getD []

end recording_info_utils

/-- Extension normalization from _assert_valid_rec_dir: strip one leading dot
when present; no case folding is performed. -/
def normalize_extension (ext : String) : String :=
  match ext.data with
  | [] => ext
  | c :: cs => if c = '.' then String.mk cs else ext

/-- Video-file test from _assert_valid_rec_dir: the path is a regular file and
its normalized suffix is among the normalized known video extensions. The
extension set VALID_VIDEO_EXTENSIONS lives in video_capture.utils (outside the
excerpt) and is taken here as a parameter. -/
def is_video_file (video_exts : List String) (p : PathState) : Bool :=
  p.is_file && (video_exts.map normalize_extension).contains (normalize_extension p.suffix)

/-- Validation of the candidate path, from _assert_valid_rec_dir: the path
must exist and be a directory; a regular file with a video extension gets the
dedicated video error with a recovery hint, any other non-directory gets a
generic error. -/
def _assert_valid_rec_dir (video_exts : List String) (p : PathState) :
    Except InvalidRecordingException Unit :=
  if !p.path_exists then
    Except.error ⟨"Target at path does not exist: " ++ p.display, ""⟩
  else if !p.is_dir then
    if is_video_file video_exts p then
      Except.error ⟨"The provided path is a video, not a recording directory",
        "Please provide a recording directory"⟩
    else
      Except.error ⟨"Target at path is not a directory: " ++ p.display, ""⟩
  else
    Except.ok ()

/-- Invisible-format check from is_pupil_invisible_recording: reading the
device JSON info file yields true on success, false on a FileNotFoundError
condition, and any other fault propagates uncaught. -/
def is_pupil_invisible_recording (d : RecDirContents) : Except String Bool :=
  match recording_info_utils.read_info_json_file d with
  | JsonReadOutcome.ok => Except.ok true
  | JsonReadOutcome.fileNotFound => Except.ok false
  | JsonReadOutcome.fault s => Except.error s

/-- Mobile-format check from is_pupil_mobile_recording: the Capture Software
field of the legacy CSV must equal "Pupil Mobile" and no Data Format Version
key may be present; a missing Capture Software key (a KeyError) is caught and
yields false. -/
def is_pupil_mobile_recording (d : RecDirContents) : Bool :=
  match (recording_info_utils.read_info_csv_file d).lookup "Capture Software" with
  | some v => v == "Pupil Mobile"
      && ((recording_info_utils.read_info_csv_file d).lookup "Data Format Version").isNone
  | none => false

/-- OldStyle check from was_recording_opened_in_player_before: the legacy CSV
contains a Data Format Version key. -/
def was_recording_opened_in_player_before (d : RecDirContents) : Bool :=
  ((recording_info_utils.read_info_csv_file d).lookup "Data Format Version").isSome

/-- Classification from get_recording_type: validate the path first, then try
the four format rules in the fixed order NewStyle, OldStyle, Invisible,
Mobile, returning the first match; when none matches, fail with the no-info
error. -/
def get_recording_type (video_exts : List String) (p : PathState) (d : RecDirContents) :
    Except PyExc RecordingType :=
  match _assert_valid_rec_dir video_exts p with
  | Except.error e => Except.error (PyExc.invalidRecording e)
  | Except.ok _ =>
    if RecordingInfoFile.does_recording_contain_info_file d then
      Except.ok RecordingType.NEW_STYLE
    else if was_recording_opened_in_player_before d then
      Except.ok RecordingType.OLD_STYLE
    else
      match is_pupil_invisible_recording d with
      | Except.error s => Except.error (PyExc.uncaughtFault s)
      | Except.ok true => Except.ok RecordingType.INVISIBLE
      | Except.ok false =>
        if is_pupil_mobile_recording d then
          Except.ok RecordingType.MOBILE
        else
          Except.error (PyExc.invalidRecording
            ⟨"There is no info file in the target directory.", ""⟩)

/-- Wrapper from assert_valid_recording_type: classify and assert the result
is a member of the RecordingType enumeration. -/
def assert_valid_recording_type (video_exts : List String) (p : PathState)
    (d : RecDirContents) : Except PyExc Unit :=
  match get_recording_type video_exts p d with
  | Except.error e => Except.error e
  | Except.ok t =>
    if RecordingType.mem t then Except.ok () else Except.error PyExc.assertionError

/-- State of the ctypes.util module: its find_library function, mapping a
library name to the located shared-library name when found. -/
structure CtypesUtil where
  find_library : String → Option String

/-- Patcher object from runtime_hook_sounddevice.py: stores the original
find_library captured at construction time. -/
structure SoundDevicePatcher where
  original_find_library : String → Option String

/-- Replacement function installed by patch_library: answer the fixed shared
library name for "portaudio" and defer to the original for everything else. -/
def _find_library_patched (original : String → Option String) :
    String → Option String :=
  fun name =>
    if name == "portaudio" then some "libportaudio.so.2" else original name

/-- Construction of a SoundDevicePatcher: capture the current find_library as
the original and install the patched function, returning the patcher and the
updated ctypes.util state. -/
def SoundDevicePatcher.init (c : CtypesUtil) : SoundDevicePatcher × CtypesUtil :=
  let patcher : SoundDevicePatcher := ⟨c.find_library⟩
  (patcher, ⟨_find_library_patched patcher.original_find_library⟩)

/-- Restoration from restore_library: reinstall the stored original
find_library, whatever function is currently installed. -/
def SoundDevicePatcher.restore_library (patcher : SoundDevicePatcher)
    (_c : CtypesUtil) : CtypesUtil :=
  ⟨patcher.original_find_library⟩

/-- Supported pye3d version literal from pye3d_plugin.py. -/
def version_supported : String := "0.0.4"

/-- Installed pye3d version as computed at import time of pye3d_plugin.py:
the __version__ attribute of the pye3d module when present, "0.0.1" as the
getattr default otherwise. -/
def version_installed (pye3d_version_attr : Option String) : String :=
  pye3d_version_attr.getD "0.0.1"

/-- Outcome of importing the pye3d_plugin module: either the import fails
with an ImportError carrying a message, or the module loads and the
Pye3DPlugin class is defined. -/
inductive ImportOutcome where
  | importError : String → ImportOutcome
  | loadedWithPluginClass : ImportOutcome
deriving DecidableEq, Repr

/-- Module-level import behavior of pye3d_plugin.py: compare the installed
pye3d version with the supported one and raise ImportError on mismatch; the
Pye3DPlugin class definition is only reached when the versions are equal. -/
def import_pye3d_plugin (pye3d_version_attr : Option String) : ImportOutcome :=
  if version_installed pye3d_version_attr != version_supported then
    ImportOutcome.importError "Unsupported version found"
  else
    ImportOutcome.loadedWithPluginClass

/-! Theorems about the claims. -/

/-- ASCII lowercase folding, used only to state the case-insensitive
extension comparison that the spec describes for the video-file check. -/
def ascii_lower (s : String) : String :=
  String.mk (s.data.map fun c => if c.isUpper then Char.ofNat (c.toNat + 32) else c)

/-- C1 counterexample: for the valid directory /rec containing no marker file
at all, classification fails with reason "There is no info file in the target
directory." (capitalized, with a trailing period), not with the
lowercase, period-free reason string the claim quotes. -/
theorem no_marker_reason_counterexample :
    get_recording_type [] (⟨true, true, false, "", "/rec"⟩ : PathState)
        (⟨false, JsonReadOutcome.fileNotFound, none⟩ : RecDirContents) =
      Except.error (PyExc.invalidRecording
        ⟨"There is no info file in the target directory.", ""⟩) ∧
    get_recording_type [] (⟨true, true, false, "", "/rec"⟩ : PathState)
        (⟨false, JsonReadOutcome.fileNotFound, none⟩ : RecDirContents) ≠
      Except.error (PyExc.invalidRecording
        ⟨"there is no info file in the target directory", ""⟩) := by
  exact ⟨rfl, by decide⟩

/-- C1 (amended): for every valid recording directory containing none of the
recognized marker files, classification fails with an InvalidRecordingException
whose reason is "There is no info file in the target directory." and whose
recovery is empty; it never fails any other way and never returns a success
value. -/
theorem classify_no_marker_fails_with_no_info_error
    (video_exts : List String) (p : PathState) (d : RecDirContents)
    (hex : p.path_exists = true) (hdir : p.is_dir = true)
    (hnew : d.info_file_present = false)
    (hcsv : d.info_csv = none)
    (hjson : d.info_json = JsonReadOutcome.fileNotFound) :
    get_recording_type video_exts p d =
      Except.error (PyExc.invalidRecording
        ⟨"There is no info file in the target directory.", ""⟩) := by
  simp [get_recording_type, _assert_valid_rec_dir, hex, hdir,
    RecordingInfoFile.does_recording_contain_info_file, hnew,
    was_recording_opened_in_player_before, recording_info_utils.read_info_csv_file,
    hcsv, is_pupil_invisible_recording, recording_info_utils.read_info_json_file,
    hjson, is_pupil_mobile_recording]

/-- C1 witness: the amended theorem applied to the directory /rec with no
marker files. -/
theorem classify_no_marker_fails_with_no_info_error_witness :
    get_recording_type [] (⟨true, true, false, "", "/rec"⟩ : PathState)
        (⟨false, JsonReadOutcome.fileNotFound, none⟩ : RecDirContents) =
      Except.error (PyExc.invalidRecording
        ⟨"There is no info file in the target directory.", ""⟩) :=
  classify_no_marker_fails_with_no_info_error [] _ _ rfl rfl rfl rfl rfl

/-- C2: on a valid recording directory the four format rules are applied in
the fixed order NewStyle, OldStyle, Invisible, Mobile, and the first match
determines the result: the NewStyle marker alone forces NEW_STYLE whatever
the other probes would do (in particular even when the Invisible probe would
fault), the OldStyle key then forces OLD_STYLE, a successful Invisible read
then forces INVISIBLE, and the Mobile fields then force MOBILE. -/
theorem classify_priority_order
    (video_exts : List String) (p : PathState) (d : RecDirContents)
    (hex : p.path_exists = true) (hdir : p.is_dir = true) :
    (d.info_file_present = true →
      get_recording_type video_exts p d = Except.ok RecordingType.NEW_STYLE) ∧
    (d.info_file_present = false →
      was_recording_opened_in_player_before d = true →
      get_recording_type video_exts p d = Except.ok RecordingType.OLD_STYLE) ∧
    (d.info_file_present = false →
      was_recording_opened_in_player_before d = false →
      d.info_json = JsonReadOutcome.ok →
      get_recording_type video_exts p d = Except.ok RecordingType.INVISIBLE) ∧
    (d.info_file_present = false →
      was_recording_opened_in_player_before d = false →
      d.info_json = JsonReadOutcome.fileNotFound →
      is_pupil_mobile_recording d = true →
      get_recording_type video_exts p d = Except.ok RecordingType.MOBILE) := by
  refine ⟨fun hnew => ?_, fun hnew hold => ?_, fun hnew hold hjson => ?_,
    fun hnew hold hjson hmob => ?_⟩ <;>
    simp_all [get_recording_type, _assert_valid_rec_dir,
      RecordingInfoFile.does_recording_contain_info_file,
      is_pupil_invisible_recording, recording_info_utils.read_info_json_file]

/-- C2 witness: a directory carrying the NewStyle marker together with a
qualifying legacy CSV and a faulting device JSON is classified NEW_STYLE. -/
theorem classify_priority_order_witness :
    get_recording_type [] (⟨true, true, false, "", "/rec"⟩ : PathState)
        (⟨true, JsonReadOutcome.fault "boom",
          some [("Data Format Version", "v1")]⟩ : RecDirContents) =
      Except.ok RecordingType.NEW_STYLE :=
  (classify_priority_order [] _ _ rfl rfl).1 rfl

/-- C3: a valid recording directory whose device JSON info file reads
successfully and which matches neither the NewStyle nor the OldStyle rule is
classified INVISIBLE. -/
theorem classify_invisible
    (video_exts : List String) (p : PathState) (d : RecDirContents)
    (hex : p.path_exists = true) (hdir : p.is_dir = true)
    (hnew : d.info_file_present = false)
    (hold : was_recording_opened_in_player_before d = false)
    (hjson : d.info_json = JsonReadOutcome.ok) :
    get_recording_type video_exts p d = Except.ok RecordingType.INVISIBLE := by
  simp [get_recording_type, _assert_valid_rec_dir, hex, hdir,
    RecordingInfoFile.does_recording_contain_info_file, hnew, hold,
    is_pupil_invisible_recording, recording_info_utils.read_info_json_file, hjson]

/-- C3 witness: a directory containing only the device JSON info file (no
NewStyle marker, no legacy CSV) is classified INVISIBLE. -/
theorem classify_invisible_witness :
    get_recording_type [] (⟨true, true, false, "", "/rec"⟩ : PathState)
        (⟨false, JsonReadOutcome.ok, none⟩ : RecDirContents) =
      Except.ok RecordingType.INVISIBLE :=
  classify_invisible [] _ _ rfl rfl rfl rfl rfl

/-- C4 counterexample: the regular file /rec/x.MP4 whose extension MP4
matches the known set ["mp4"] under case-insensitive comparison is rejected
with the generic "Target at path is not a directory" error, not with the
video error the claim requires: the comparison in the code is
case-sensitive. -/
theorem video_extension_case_counterexample :
    ((["mp4"].map normalize_extension).map ascii_lower).contains
        (ascii_lower (normalize_extension ".MP4")) = true ∧
    _assert_valid_rec_dir ["mp4"]
        (⟨true, false, true, ".MP4", "/rec/x.MP4"⟩ : PathState) =
      Except.error ⟨"Target at path is not a directory: /rec/x.MP4", ""⟩ ∧
    _assert_valid_rec_dir ["mp4"]
        (⟨true, false, true, ".MP4", "/rec/x.MP4"⟩ : PathState) ≠
      Except.error ⟨"the provided path is a video, not a recording directory",
        "please provide a recording directory"⟩ := by
  refine ⟨by decide, by decide, by decide⟩

/-- C4 (amended): for every path resolving to an existing regular file whose
extension, compared exactly (case-sensitively) after stripping the leading
dot, is in the known video-file extension set, validation fails with reason
"The provided path is a video, not a recording directory" and the non-empty
recovery "Please provide a recording directory". -/
theorem validate_video_file_error
    (video_exts : List String) (p : PathState)
    (hex : p.path_exists = true) (hdir : p.is_dir = false)
    (hfile : p.is_file = true)
    (hext : (video_exts.map normalize_extension).contains
      (normalize_extension p.suffix) = true) :
    _assert_valid_rec_dir video_exts p =
      Except.error ⟨"The provided path is a video, not a recording directory",
        "Please provide a recording directory"⟩ := by
  simp [_assert_valid_rec_dir, hex, hdir, is_video_file, hfile]
  simpa using hext

/-- C4 witness: the amended theorem applied to the regular file /rec/x.mp4
against the extension set ["mp4"]. -/
theorem validate_video_file_error_witness :
    _assert_valid_rec_dir ["mp4"]
        (⟨true, false, true, ".mp4", "/rec/x.mp4"⟩ : PathState) =
      Except.error ⟨"The provided path is a video, not a recording directory",
        "Please provide a recording directory"⟩ :=
  validate_video_file_error ["mp4"] _ rfl rfl rfl (by decide)

/-- C5: whenever validation fails, classification fails with exactly the same
InvalidRecordingException (same reason and recovery), for every possible
directory content — so no format check is consulted before validation
succeeds. -/
theorem classify_propagates_validate_error
    (video_exts : List String) (p : PathState) (d : RecDirContents)
    (e : InvalidRecordingException)
    (h : _assert_valid_rec_dir video_exts p = Except.error e) :
    get_recording_type video_exts p d =
      Except.error (PyExc.invalidRecording e) := by
  simp [get_recording_type, h]

/-- C5 witness: classification of the non-existent path /nope fails with the
very error validation produces there. -/
theorem classify_propagates_validate_error_witness :
    get_recording_type [] (⟨false, false, false, "", "/nope"⟩ : PathState)
        (⟨true, JsonReadOutcome.ok, none⟩ : RecDirContents) =
      Except.error (PyExc.invalidRecording
        ⟨"Target at path does not exist: /nope", ""⟩) :=
  classify_propagates_validate_error [] _ _ _ (by decide)

/-- C6: the Invisible check returns false exactly when the device JSON read
hits a FileNotFoundError condition, returns true exactly when the read
succeeds, and propagates exactly the faults of any other read failure
uncaught to its caller. -/
theorem invisible_check_read_outcomes (d : RecDirContents) (s : String) :
    (is_pupil_invisible_recording d = Except.ok false ↔
      recording_info_utils.read_info_json_file d = JsonReadOutcome.fileNotFound) ∧
    (is_pupil_invisible_recording d = Except.ok true ↔
      recording_info_utils.read_info_json_file d = JsonReadOutcome.ok) ∧
    (is_pupil_invisible_recording d = Except.error s ↔
      recording_info_utils.read_info_json_file d = JsonReadOutcome.fault s) := by
  cases hj : d.info_json <;>
    simp_all [is_pupil_invisible_recording, recording_info_utils.read_info_json_file]

/-- C7: the Mobile check returns true exactly when the legacy CSV info file
exists, its Capture Software field equals the literal "Pupil Mobile" and it
carries no Data Format Version key; in every other case, in particular when a
key is missing, it returns false rather than raising. -/
theorem mobile_check_iff (d : RecDirContents) :
    is_pupil_mobile_recording d = true ↔
      ∃ m, d.info_csv = some m ∧
        m.lookup "Capture Software" = some "Pupil Mobile" ∧
        m.lookup "Data Format Version" = none := by
  cases hc : d.info_csv with
  | none =>
    simp [is_pupil_mobile_recording, recording_info_utils.read_info_csv_file, hc]
  | some m =>
    have hread : recording_info_utils.read_info_csv_file d = m := by
      simp [recording_info_utils.read_info_csv_file, hc]
    cases hl : m.lookup "Capture Software" with
    | none =>
      simp only [is_pupil_mobile_recording, hread, hl]
      simp [hc, hl]
    | some v =>
      simp only [is_pupil_mobile_recording, hread, hl, Bool.and_eq_true,
        beq_iff_eq, Option.isNone_iff_eq_none]
      simp [hc, hl]

/-- C8: the assertion in assert_valid_recording_type can never fire, because
membership in the RecordingType enumeration holds for every classification
result: the wrapper is exactly classification with its success value dropped,
so it succeeds precisely on the inputs where get_recording_type succeeds and
otherwise fails with the same exception. -/
theorem assert_valid_recording_type_agrees
    (video_exts : List String) (p : PathState) (d : RecDirContents) :
    (∀ t : RecordingType, RecordingType.mem t = true) ∧
    assert_valid_recording_type video_exts p d =
      Except.map (fun _ => ()) (get_recording_type video_exts p d) ∧
    (assert_valid_recording_type video_exts p d = Except.ok () ↔
      ∃ t, get_recording_type video_exts p d = Except.ok t) := by
  refine ⟨fun t => by cases t <;> rfl, ?_, ?_⟩
  · cases hg : get_recording_type video_exts p d with
    | error e => simp [assert_valid_recording_type, hg, Except.map]
    | ok t =>
      cases t <;>
        simp [assert_valid_recording_type, hg, Except.map, RecordingType.mem]
  · cases hg : get_recording_type video_exts p d with
    | error e => simp [assert_valid_recording_type, hg]
    | ok t =>
      cases t <;> simp [assert_valid_recording_type, hg, RecordingType.mem]

/-- C9: while the patch of a SoundDevicePatcher is installed, find_library
answers the fixed string for "portaudio" and agrees with the captured
original on every other name, and restore_library reinstalls exactly the
original function: construction followed by restoration is the identity on
the ctypes.util state. -/
theorem sounddevice_patch_and_restore
    (f : String → Option String) (n : String) (h : n ≠ "portaudio") :
    (SoundDevicePatcher.init ⟨f⟩).2.find_library "portaudio" =
      some "libportaudio.so.2" ∧
    (SoundDevicePatcher.init ⟨f⟩).2.find_library n = f n ∧
    SoundDevicePatcher.restore_library (SoundDevicePatcher.init ⟨f⟩).1
      (SoundDevicePatcher.init ⟨f⟩).2 = (⟨f⟩ : CtypesUtil) := by
  refine ⟨rfl, ?_, rfl⟩
  simp [SoundDevicePatcher.init, _find_library_patched, h]

/-- C9 witness: the patch-and-restore round trip observed on the constant
none lookup function and the unrelated name x. -/
theorem sounddevice_patch_and_restore_witness :
    (SoundDevicePatcher.init ⟨fun _ => none⟩).2.find_library "portaudio" =
      some "libportaudio.so.2" ∧
    (SoundDevicePatcher.init ⟨fun _ => none⟩).2.find_library "x" =
      (fun _ => none : String → Option String) "x" ∧
    SoundDevicePatcher.restore_library
      (SoundDevicePatcher.init ⟨fun _ => none⟩).1
      (SoundDevicePatcher.init ⟨fun _ => none⟩).2 =
      (⟨fun _ => none⟩ : CtypesUtil) :=
  sounddevice_patch_and_restore (fun _ => none) "x" (by decide)

/-- C10: importing the pye3d plugin module raises ImportError exactly when
the installed pye3d version differs from the supported version "0.0.4", a
missing __version__ attribute counts as the rejected version "0.0.1", and the
Pye3DPlugin class is defined exactly when the versions agree. -/
theorem pye3d_import_version_gate (v : Option String) :
    version_supported = "0.0.4" ∧
    (import_pye3d_plugin v = ImportOutcome.importError "Unsupported version found" ↔
      version_installed v ≠ version_supported) ∧
    (import_pye3d_plugin v = ImportOutcome.loadedWithPluginClass ↔
      version_installed v = version_supported) ∧
    version_installed none = "0.0.1" ∧
    import_pye3d_plugin none =
      ImportOutcome.importError "Unsupported version found" := by
  refine ⟨rfl, ?_, ?_, rfl, by decide⟩ <;>
    by_cases h : version_installed v = version_supported <;>
      simp [import_pye3d_plugin, h]
